import Mathlib

/-!
Shallow embedding of the authentication / domain-error pipeline of the
pray-together Go API server (gin-template repository), covering:

* internal/shared/error/errors.go — domain-error registry and resolution
* internal/shared/logger MaskEmail — PII masking for log lines
* internal/shared/token — JWT issuance and validation (JWTManager)
* internal/shared/middleware/jwt.go — bearer-token middleware
* internal/auth — AuthService.Login / AuthService.Signup
* internal/member — MemberService.GetProfile, MemberRepository

Modelling conventions:

* Go byte strings are modelled as Lean String / List Char.  Every separator
  the source splits on (the at sign, the space) is ASCII, where byte-level
  and character-level splitting of UTF-8 text agree.
* Go error values (errors.New sentinels, the domainSentinel type, and
  fmt.Errorf wrapping with the w verb) are the inductive GoError below;
  errors.Is and errors.As become chain walks over that inductive.
* The database is a list of Member rows; GORM query methods are evaluated
  against that list.  Storage-level failures other than record-not-found
  are not represented (no claim depends on them).
* time.Now is passed explicitly as an integer Unix-seconds timestamp, and
  durations are integer seconds.
* HMAC-SHA256 is an explicit parameter mac : List Nat → ClaimsPayload →
  List Nat; JWT signature verification recomputes the MAC over the signed
  content and compares, exactly as the library does, so no assumption on
  mac is needed for any theorem.
-/

/-! ## internal/shared/error/errors.go -/

/-- ErrorResponse from internal/shared/error/errors.go: the JSON error
envelope with fields status, code, message.  The Inhabited default is the
Go zero value ErrorResponse{} = {0, "", ""}. -/
structure ErrorResponse where
  status : Nat
  code : String
  message : String
deriving DecidableEq, Repr, Inhabited

/-- Go error values as this codebase builds them:
* domain — a domainSentinel created by NewDomainError(errInfo)
  (internal/shared/error/errors.go); it implements the DomainError
  interface and Info() returns errInfo;
* sentinel — a plain errors.New value from an external package
  (gorm.ErrRecordNotFound, the bcrypt mismatch error, the jwt errors);
  distinct names stand for distinct error identities;
* wrapped — fmt.Errorf with a trailing w verb wrapping one inner error. -/
inductive GoError where
  | domain (errInfo : String)
  | sentinel (name : String)
  | wrapped (msg : String) (inner : GoError)
deriving DecidableEq, Repr

/-- errors.As(err, target) for target of interface type DomainError:
walks the unwrap chain and yields the errInfo of the first domainSentinel
found, if any. -/
def findDomainInfo : GoError → Option String
  | .domain info => some info
  | .sentinel _ => none
  | .wrapped _ inner => findDomainInfo inner

/-- errors.Is(err, target): the chain starting at err contains target. -/
def errorsIs : GoError → GoError → Bool
  | .wrapped msg inner, target =>
      (GoError.wrapped msg inner == target) || errorsIs inner target
  | e, target => e == target

/-- The shared ValidationFailed response (status 400, ERROR-001). -/
def ValidationFailed : ErrorResponse :=
  ⟨400, "ERROR-001", "잘못된 요청입니다."⟩

/-- The shared InvalidRequest response (status 400, ERROR-002). -/
def InvalidRequest : ErrorResponse :=
  ⟨400, "ERROR-002", "잘못된 요청 형식입니다."⟩

/-- The shared InternalServerError response (status 500, ERROR-003). -/
def InternalServerError : ErrorResponse :=
  ⟨500, "ERROR-003", "서버 내부 오류가 발생했습니다."⟩

/-- The contents of the process-wide domainErrorResponses map after all
package init functions have run, one entry per
RegisterDomainErrorResponse call in the source:
internal/member/errors.go registers MEMBER_NOT_FOUND and
MEMBER_ALREADY_EXISTS, the auth package registers
INCORRECT_EMAIL_PASSWORD, and internal/shared/middleware/jwt.go registers
the four token errInfo keys (all four to the same 401 AUTH-000 body).
All keys are distinct, so map insertion order does not matter. -/
def domainErrorRegistrations : List (String × ErrorResponse) :=
  [ ("MEMBER_NOT_FOUND", ⟨404, "MEMBER-001", "회원 정보를 찾을 수 없습니다."⟩),
    ("MEMBER_ALREADY_EXISTS", ⟨409, "MEMBER-002", "이미 가입된 사용자입니다."⟩),
    ("INCORRECT_EMAIL_PASSWORD", ⟨400, "AUTH-003", "이메일 또는 비밀번호가 일치하지 않습니다."⟩),
    ("MISSING_TOKEN", ⟨401, "AUTH-000", "로그인을 해주세요."⟩),
    ("INVALID_TOKEN", ⟨401, "AUTH-000", "로그인을 해주세요."⟩),
    ("EXPIRED_TOKEN", ⟨401, "AUTH-000", "로그인을 해주세요."⟩),
    ("INVALID_CLAIMS", ⟨401, "AUTH-000", "로그인을 해주세요."⟩) ]

/-- Lookup in the domainErrorResponses map. -/
def domainErrorResponses (errInfo : String) : Option ErrorResponse :=
  (domainErrorRegistrations.find? (fun p => p.1 == errInfo)).map Prod.snd

/-- ResolveDomainError from internal/shared/error/errors.go: nil yields
(zero response, false); otherwise errors.As hunts for a DomainError in
the chain and, when found, its errInfo is looked up in the registry;
(response, true) on a hit, (zero response, false) otherwise. -/
def ResolveDomainError : Option GoError → ErrorResponse × Bool
  | none => (default, false)
  | some err =>
    match findDomainInfo err with
    | some info =>
      match domainErrorResponses info with
      | some resp => (resp, true)
      | none => (default, false)
    | none => (default, false)

/-- The error branch shared by AuthHandler.Login, AuthHandler.Signup and
MemberHandler (internal/auth/handler.go): when ResolveDomainError finds a
registered response that response is sent, otherwise the generic
InternalServerError response is sent — never the raw error. -/
def respondServiceError (err : GoError) : ErrorResponse :=
  match ResolveDomainError (some err) with
  | (resp, true) => resp
  | (_, false) => InternalServerError

/-! ## internal/shared/logger MaskEmail -/

/-- strings.Split(s, sep) for a single-character separator, over the
characters of the string.  Go returns the list of substrings between
occurrences of sep; Split of the empty string is a one-element list
holding the empty string.  Splitting on the ASCII at sign at byte level
(as Go does) and at character level agree, since an ASCII byte never
occurs inside a multi-byte UTF-8 character. -/
def splitOnChar (sep : Char) : List Char → List (List Char)
  | [] => [[]]
  | c :: rest =>
    if c = sep then [] :: splitOnChar sep rest
    else
      match splitOnChar sep rest with
      | [] => [[c]]
      | part :: parts => (c :: part) :: parts

/-- MaskEmail from the logger package.  The source:
empty input returns empty; strings.Split on the at sign must give exactly
two parts, otherwise the fixed placeholder; an empty username keeps only
the domain; otherwise the first character of the username is kept.
(The Go slice username[:1] takes the first byte; the model takes the
first character, which coincides on ASCII first characters.) -/
def MaskEmail (email : List Char) : List Char :=
  if email = [] then []
  else
    let parts := splitOnChar '@' email
    if parts.length ≠ 2 then "***@***".data
    else
      let username := parts.getD 0 []
      let domain := parts.getD 1 []
      if username.length = 0 then "***@".data ++ domain
      else username.take 1 ++ "***@".data ++ domain

/-! ## internal/shared/token (JWTManager, golang-jwt v5 semantics)

The token package signs Claims with jwt.SigningMethodHS256 and validates
with a parser restricted to HS256.  The embedding models the parts of
golang-jwt v5 and encoding/json that the source exercises:

* Marshaling.  Claims has its own fields tagged member_id, email,
  token_type, exp (int64), iat (int64) and embeds jwt.RegisteredClaims,
  whose ExpiresAt and IssuedAt pointers carry the same exp and iat JSON
  tags at greater depth.  Per the encoding/json dominant-field rule (the
  field at the shallowest depth wins, for Marshal and Unmarshal alike),
  the int64 fields own the exp and iat keys, and the embedded
  RegisteredClaims contributes only sub, iss (both omitempty; nbf and aud
  are never set by this code).
* Unmarshaling therefore fills the int64 exp and iat fields and leaves
  RegisteredClaims.ExpiresAt and IssuedAt nil.
* Validation.  jwt v5 checks that the header alg is among the valid
  methods, verifies the HMAC signature by recomputing it over the signed
  content and comparing, then runs the claims validator, which reads
  GetExpirationTime() — the method promoted from the embedded
  RegisteredClaims, returning its (nil after unmarshal) ExpiresAt — and
  skips the expiry comparison when it is nil, because requiring exp is an
  opt-in parser option the source does not use.
-/

namespace token

/-- Unix timestamp in whole seconds (time.Time.Unix). -/
abbrev UnixTime := Int

/-- The registered-claims portion (jwt.RegisteredClaims) as this code
uses it: Subject, ExpiresAt, IssuedAt, Issuer; nbf and aud stay zero.
Defaults are the Go zero values. -/
structure RegisteredClaims where
  subject : String := ""
  expiresAt : Option UnixTime := none
  issuedAt : Option UnixTime := none
  issuer : String := ""
deriving DecidableEq, Repr, Inhabited

/-- The Claims struct of the token package: custom MemberID, Email,
TokenType, ExpiresAt (int64 tagged exp), IssuedAt (int64 tagged iat),
with jwt.RegisteredClaims embedded. -/
structure Claims where
  memberID : String
  email : String
  tokenType : String
  expiresAt : Int
  issuedAt : Int
  registered : RegisteredClaims
deriving DecidableEq, Repr, Inhabited

/-- The JSON object encoding/json produces for Claims, after dominant-field
resolution: member_id, email, token_type, exp, iat come from the
shallow custom fields; sub and iss come from the embedded
RegisteredClaims and are omitted when empty (omitempty). -/
structure ClaimsPayload where
  member_id : String
  email : String
  token_type : String
  exp : Int
  iat : Int
  sub : Option String
  iss : Option String
deriving DecidableEq, Repr

/-- json.Marshal of Claims under the dominant-field rule. -/
def marshalClaims (c : Claims) : ClaimsPayload :=
  { member_id := c.memberID
    email := c.email
    token_type := c.tokenType
    exp := c.expiresAt
    iat := c.issuedAt
    sub := if c.registered.subject = "" then none else some c.registered.subject
    iss := if c.registered.issuer = "" then none else some c.registered.issuer }

/-- json.Unmarshal of a claims JSON object into a fresh Claims value.
The exp and iat keys populate the shallow int64 fields, so the embedded
RegisteredClaims keeps nil ExpiresAt and IssuedAt — the key fact behind
the expiry behaviour proved below. -/
def unmarshalClaims (p : ClaimsPayload) : Claims :=
  { memberID := p.member_id
    email := p.email
    tokenType := p.token_type
    expiresAt := p.exp
    issuedAt := p.iat
    registered :=
      { subject := p.sub.getD ""
        expiresAt := none
        issuedAt := none
        issuer := p.iss.getD "" } }

/-- ACCESS token-type constant. -/
def ACCESS : String := "access"

/-- REFRESH token-type constant. -/
def REFRESH : String := "refresh"

/-- The HS256 algorithm name carried in the token header. -/
def hs256Name : String := "HS256"

/-- A structurally well-formed JWS compact token: header algorithm,
decoded claims JSON object, and raw signature bytes. -/
structure SignedToken where
  alg : String
  payload : ClaimsPayload
  sig : List Nat
deriving DecidableEq, Repr

/-- The inputs ValidateToken can receive, as the jwt v5 parser
classifies them:
* malformed — not three dot-separated base64url segments, or a header
  that does not decode;
* undecodableClaims — segments and header fine, but the claims segment
  does not decode into the Claims struct;
* wellFormed — a structural token. -/
inductive TokenInput where
  | malformed
  | undecodableClaims (alg : String) (sig : List Nat)
  | wellFormed (t : SignedToken)
deriving DecidableEq, Repr

/-- The jwt v5 parse/verify failures the source distinguishes via
errors.Is: jwt.ErrTokenMalformed, jwt.ErrTokenSignatureInvalid and
jwt.ErrTokenExpired (other registered-claims checks are inactive for
this parser configuration). -/
inductive JWTParseError where
  | tokenMalformed
  | signatureInvalid
  | tokenExpired
deriving DecidableEq, Repr

/-- The token package errors: ErrInvalidToken, ErrExpiredToken,
ErrInvalidClaims. -/
inductive TokenError where
  | invalidToken
  | expiredToken
  | invalidClaims
deriving DecidableEq, Repr

/-- JWTManager: symmetric secret, issuer name, access and refresh TTLs
(seconds). -/
structure JWTManager where
  secret : List Nat
  issuer : String
  accessExpiry : Int
  refreshExpiry : Int
deriving DecidableEq, Repr

/-- The claims GenerateAccessToken builds at time now: MemberID, Email,
ExpiresAt = now + accessExpiry, TokenType = access, IssuedAt = now, and
RegisteredClaims carrying ExpiresAt, IssuedAt, Issuer — but no Subject
(the source sets Subject only in GenerateRefreshToken). -/
def JWTManager.accessTokenClaims (m : JWTManager) (now : UnixTime)
    (memberID email : String) : Claims :=
  let expiresAt := now + m.accessExpiry
  { memberID := memberID
    email := email
    tokenType := ACCESS
    expiresAt := expiresAt
    issuedAt := now
    registered :=
      { subject := ""
        expiresAt := some expiresAt
        issuedAt := some now
        issuer := m.issuer } }

/-- The claims GenerateRefreshToken builds at time now; unlike the access
claims these carry Subject = memberID. -/
def JWTManager.refreshTokenClaims (m : JWTManager) (now : UnixTime)
    (memberID email : String) : Claims :=
  let expiresAt := now + m.refreshExpiry
  { memberID := memberID
    email := email
    tokenType := REFRESH
    expiresAt := expiresAt
    issuedAt := now
    registered :=
      { subject := memberID
        expiresAt := some expiresAt
        issuedAt := some now
        issuer := m.issuer } }

/-- GenerateAccessToken: marshal the claims and sign them with HS256
over the secret.  The MAC function is a parameter (see the module
comment); SignedString fails only if marshaling fails, which cannot
happen for this struct, so generation is total. -/
def JWTManager.GenerateAccessToken (m : JWTManager)
    (mac : List Nat → ClaimsPayload → List Nat) (now : UnixTime)
    (memberID email : String) : SignedToken :=
  let payload := marshalClaims (m.accessTokenClaims now memberID email)
  { alg := hs256Name, payload := payload, sig := mac m.secret payload }

/-- GenerateRefreshToken, same shape with the refresh claims. -/
def JWTManager.GenerateRefreshToken (m : JWTManager)
    (mac : List Nat → ClaimsPayload → List Nat) (now : UnixTime)
    (memberID email : String) : SignedToken :=
  let payload := marshalClaims (m.refreshTokenClaims now memberID email)
  { alg := hs256Name, payload := payload, sig := mac m.secret payload }

/-- jwt.NewParser(jwt.WithValidMethods([HS256])).ParseWithClaims with the
manager secret, evaluated at time now:
1. malformed input or an undecodable claims segment is
   jwt.ErrTokenMalformed;
2. a header algorithm outside the valid-methods list is rejected
   (algorithm-confusion defence);
3. the HMAC is recomputed over the signed content and compared — any
   mismatch is jwt.ErrTokenSignatureInvalid;
4. the claims validator checks expiry through GetExpirationTime(), i.e.
   the embedded RegisteredClaims.ExpiresAt of the freshly unmarshaled
   claims; when that is nil the check is skipped (exp is not required by
   default), and when present the token is expired once now is not
   before it. -/
def parseWithClaims (mac : List Nat → ClaimsPayload → List Nat)
    (secret : List Nat) (now : UnixTime) (input : TokenInput) :
    Except JWTParseError Claims :=
  match input with
  | .malformed => .error .tokenMalformed
  | .undecodableClaims _ _ => .error .tokenMalformed
  | .wellFormed t =>
    if t.alg ≠ hs256Name then .error .signatureInvalid
    else if t.sig ≠ mac secret t.payload then .error .signatureInvalid
    else
      let claims := unmarshalClaims t.payload
      match claims.registered.expiresAt with
      | none => .ok claims
      | some e => if now < e then .ok claims else .error .tokenExpired

/-- ValidateToken from the token package: on a parser error, expiry maps
to ErrExpiredToken and everything else to ErrInvalidToken; on success the
token.Claims.(*Claims) type assertion always succeeds (the parser filled
exactly the object it was handed) and token.Valid is true whenever the
parser returned no error, so the ErrInvalidClaims and trailing
ErrInvalidToken branches of the source are unreachable and the claims are
returned. -/
def JWTManager.ValidateToken (m : JWTManager)
    (mac : List Nat → ClaimsPayload → List Nat) (now : UnixTime)
    (input : TokenInput) : Except TokenError Claims :=
  match parseWithClaims mac m.secret now input with
  | .error e =>
    if e = .tokenExpired then .error .expiredToken else .error .invalidToken
  | .ok claims => .ok claims

end token

/-- A concrete stand-in MAC used to instantiate witness statements; the
theorems themselves hold for every MAC function. -/
def macModel (key : List Nat) (p : token.ClaimsPayload) : List Nat :=
  key ++ [p.member_id.length % 256, p.exp.natAbs % 256]

/-- A concrete JWTManager for witness statements (1h access TTL, 7h
refresh TTL). -/
def mgrExample : token.JWTManager :=
  { secret := [1, 2, 3], issuer := "pray-together",
    accessExpiry := 3600, refreshExpiry := 25200 }

/-! ## internal/model and internal/member -/

namespace model

/-- Member from internal/model/member.go: numeric id (uint32, assigned by
the Oracle IDENTITY column on insert), unique email, name, phone number
and the bcrypt password hash.  The GORM-managed BaseEntity timestamps and
audit columns are not referenced by any claim and are omitted. -/
structure Member where
  id : Nat
  email : String
  name : String
  phoneNumber : String
  password : String
deriving DecidableEq, Repr

/-- NewMember from internal/model/member.go: builds a row with the
zero id, to be assigned by storage on insert. -/
def NewMember (name email phoneNumber password : String) : Member :=
  { id := 0, email := email, name := name,
    phoneNumber := phoneNumber, password := password }

end model

/-- gorm.ErrRecordNotFound, the sentinel First returns on an empty
result. -/
def gormErrRecordNotFound : GoError := .sentinel "record not found"

namespace member

/-- ErrMemberNotFound (errInfo MEMBER_NOT_FOUND). -/
def ErrMemberNotFound : GoError := .domain "MEMBER_NOT_FOUND"

/-- ErrMemberAlreadyExists (errInfo MEMBER_ALREADY_EXISTS). -/
def ErrMemberAlreadyExists : GoError := .domain "MEMBER_ALREADY_EXISTS"

/-- MemberRepository.IsExist: SELECT COUNT(*) WHERE email = ?, then
count > 0.  On the list model the query itself cannot fail. -/
def IsExist (db : List model.Member) (email : String) : Bool :=
  0 < (db.filter (fun m => m.email == email)).length

/-- MemberRepository.FindByEmail: First row WHERE email = ?;
gorm.ErrRecordNotFound when there is none. -/
def FindByEmail (db : List model.Member) (email : String) :
    Except GoError model.Member :=
  match db.find? (fun m => m.email == email) with
  | some m => .ok m
  | none => .error gormErrRecordNotFound

/-- MemberRepository.FindByID: First row WHERE id = ?. -/
def FindByID (db : List model.Member) (id : Nat) :
    Except GoError model.Member :=
  match db.find? (fun m => m.id == id) with
  | some m => .ok m
  | none => .error gormErrRecordNotFound

/-- MemberRepository.Create: INSERT of the row.  The IDENTITY id
assignment happens inside Oracle and no claim reads the id of a freshly
inserted row, so the row is appended as built. -/
def Create (db : List model.Member) (m : model.Member) :
    List model.Member :=
  db ++ [m]

/-- GetProfileResponse from internal/member/dto.go: id, name, email,
phoneNumber — and no password field. -/
structure GetProfileResponse where
  id : Nat
  name : String
  email : String
  phoneNumber : String
deriving DecidableEq, Repr

/-- MemberService.GetProfile: inside WithTransaction, FindByID; a
record-not-found is wrapped over ErrMemberNotFound, any other lookup
failure is wrapped as-is; on success the response carries exactly id,
name, email, phoneNumber.  The read-only transaction commits or rolls
back without ever writing, so no state is returned. -/
def GetProfile (db : List model.Member) (memberID : Nat) :
    Except GoError GetProfileResponse :=
  match FindByID db memberID with
  | .error e =>
    if errorsIs e gormErrRecordNotFound then
      .error (.wrapped "error" ErrMemberNotFound)
    else
      .error (.wrapped "회원 조회 실패" e)
  | .ok m =>
    .ok { id := m.id, name := m.name, email := m.email,
          phoneNumber := m.phoneNumber }

end member

namespace auth

/-- ErrInCorrectEmailPassword (errInfo INCORRECT_EMAIL_PASSWORD). -/
def ErrInCorrectEmailPassword : GoError := .domain "INCORRECT_EMAIL_PASSWORD"

/-- LoginRequest body. -/
structure LoginRequest where
  email : String
  password : String
deriving DecidableEq, Repr

/-- LoginResponse body: the two issued tokens. -/
structure LoginResponse where
  accessToken : String
  refreshToken : String
deriving DecidableEq, Repr

/-- SignupRequest body. -/
structure SignupRequest where
  name : String
  email : String
  phoneNumber : String
  password : String
deriving DecidableEq, Repr

/-- AuthService.Login.  checkpw models bcrypt.CompareHashAndPassword
(true when the hash matches the plaintext); genAccess and genRefresh
model the token.Manager interface methods returning token strings.
A FindByEmail record-not-found and a password mismatch are both wrapped
over ErrInCorrectEmailPassword (the anti-enumeration mapping); any other
lookup failure is wrapped as-is; token-issuance failures are wrapped
without a domain error. -/
def Login (db : List model.Member) (checkpw : String → String → Bool)
    (genAccess genRefresh : String → String → Except GoError String)
    (request : LoginRequest) : Except GoError LoginResponse :=
  match member.FindByEmail db request.email with
  | .error err =>
    if errorsIs err gormErrRecordNotFound then
      .error (.wrapped "error" ErrInCorrectEmailPassword)
    else
      .error (.wrapped "로그인 실패" err)
  | .ok m =>
    if checkpw m.password request.password then
      match genAccess (toString m.id) m.email with
      | .error err => .error (.wrapped "generate access token" err)
      | .ok accessToken =>
        match genRefresh (toString m.id) m.email with
        | .error err => .error (.wrapped "generate refresh token" err)
        | .ok refreshToken =>
          .ok { accessToken := accessToken, refreshToken := refreshToken }
    else
      .error (.wrapped "error" ErrInCorrectEmailPassword)

/-- AuthService.Signup, run under database.WithTransaction: an existence
hit aborts wrapping ErrMemberAlreadyExists, a hashing failure aborts
wrapping the bcrypt error, otherwise the new row is inserted.  An error
return rolls the transaction back, so the caller keeps the unchanged
database — the Except.error outcome carries no new state.  hash models
bcrypt.GenerateFromPassword. -/
def Signup (db : List model.Member)
    (hash : String → Except GoError String) (request : SignupRequest) :
    Except GoError (List model.Member) :=
  if member.IsExist db request.email then
    .error (.wrapped "error" member.ErrMemberAlreadyExists)
  else
    match hash request.password with
    | .error err => .error (.wrapped "hash password" err)
    | .ok hashedPassword =>
      .ok (member.Create db
        (model.NewMember request.name request.email request.phoneNumber
          hashedPassword))

end auth

/-! ## internal/shared/middleware/jwt.go -/

namespace middleware

/-- The Bearer scheme constant. -/
def BearerScheme : String := "Bearer"

/-- ErrMissingToken (errInfo MISSING_TOKEN). -/
def ErrMissingToken : GoError := .domain "MISSING_TOKEN"

/-- ErrInvalidToken (errInfo INVALID_TOKEN). -/
def ErrInvalidToken : GoError := .domain "INVALID_TOKEN"

/-- ErrExpiredToken (errInfo EXPIRED_TOKEN). -/
def ErrExpiredToken : GoError := .domain "EXPIRED_TOKEN"

/-- ErrInvalidClaims (errInfo INVALID_CLAIMS). -/
def ErrInvalidClaims : GoError := .domain "INVALID_CLAIMS"

/-- The 401 AUTH-000 body every registered JWT errInfo maps to. -/
def authRequiredResponse : ErrorResponse :=
  ⟨401, "AUTH-000", "로그인을 해주세요."⟩

/-- The hard-coded 401 AUTH-999 fallback of handleJWTError for a
non-registered error. -/
def authFallbackResponse : ErrorResponse :=
  ⟨401, "AUTH-999", "인증에 실패했습니다."⟩

/-- strings.SplitN(s, sep, 2) splits at the first separator only:
no occurrence gives the one-element list, otherwise the prefix before the
first occurrence and the whole remainder. -/
def splitFirst (sep : Char) : List Char → Option (List Char × List Char)
  | [] => none
  | c :: rest =>
    if c = sep then some ([], rest)
    else (splitFirst sep rest).map (fun p => (c :: p.1, p.2))

/-- strings.SplitN(s, a single space, 2). -/
def splitNSpace2 (s : List Char) : List (List Char) :=
  match splitFirst ' ' s with
  | none => [s]
  | some (before, after) => [before, after]

/-- strings.EqualFold restricted to its ASCII behaviour, which agrees
with full Unicode simple folding on the comparison against the Bearer
constant (no non-ASCII character folds to any of its letters). -/
def equalFold (a b : List Char) : Bool :=
  a.map Char.toLower == b.map Char.toLower

/-- extractToken: an empty (hence also absent, which gin reports as the
empty string) Authorization header is ErrMissingToken; a header that
SplitN does not cut into two parts, or whose first part is not the
Bearer scheme up to case, is ErrInvalidToken; otherwise the second part
is the credential. -/
def extractToken (authHeader : String) : Except GoError String :=
  if authHeader = "" then .error ErrMissingToken
  else
    let parts := splitNSpace2 authHeader.data
    if parts.length ≠ 2 || !equalFold (parts.getD 0 []) BearerScheme.data then
      .error ErrInvalidToken
    else
      .ok (String.mk (parts.getD 1 []))

/-- mapTokenError: the switch over errors.Is maps token.ErrExpiredToken
to the EXPIRED_TOKEN domain error, token.ErrInvalidClaims to
INVALID_CLAIMS, and everything else (token.ErrInvalidToken being the only
other value ValidateToken produces) to INVALID_TOKEN. -/
def mapTokenError : token.TokenError → GoError
  | .expiredToken => ErrExpiredToken
  | .invalidClaims => ErrInvalidClaims
  | .invalidToken => ErrInvalidToken

/-- The observable outcome of the middleware on one request: either the
chain is aborted after writing an error body, or the request proceeds
with member id and email stored in the gin context. -/
inductive JWTOutcome where
  | abort (resp : ErrorResponse)
  | proceed (memberID email : String)
deriving DecidableEq, Repr

/-- handleJWTError: resolve the domain error and send its registered
response; fall back to the 401 AUTH-999 body for an unregistered error;
either way abort the handler chain. -/
def handleJWTError (err : GoError) : JWTOutcome :=
  match ResolveDomainError (some err) with
  | (resp, true) => .abort resp
  | (_, false) => .abort authFallbackResponse

/-- The JWT middleware handler body: extract the bearer credential, give
it to the token manager, map a validation failure through mapTokenError,
and on success store MemberID and Email in the request context and call
the next handler.  validateToken stands for the
tokenManager.ValidateToken closure the middleware holds. -/
def JWT (validateToken : String → Except token.TokenError token.Claims)
    (authHeader : String) : JWTOutcome :=
  match extractToken authHeader with
  | .error err => handleJWTError err
  | .ok tok =>
    match validateToken tok with
    | .error err => handleJWTError (mapTokenError err)
    | .ok claims => .proceed claims.memberID claims.email

end middleware

/-- Rewriting the stored password hash of a row (used to state that
GetProfile never depends on the password column). -/
def scrubPassword (f : String → String) (m : model.Member) : model.Member :=
  { m with password := f m.password }

/-! ## Theorems for the claims -/

/-- strings.Split never returns an empty list of parts. -/
theorem splitOnChar_ne_nil (sep : Char) (l : List Char) :
    splitOnChar sep l ≠ [] := by
  induction l with
  | nil => simp [splitOnChar]
  | cons c rest ih =>
    simp only [splitOnChar]
    split
    · simp
    · cases h : splitOnChar sep rest <;> simp

/-- The number of parts strings.Split produces is one more than the
number of separator occurrences. -/
theorem length_splitOnChar (sep : Char) (l : List Char) :
    (splitOnChar sep l).length = l.count sep + 1 := by
  induction l with
  | nil => simp [splitOnChar]
  | cons c rest ih =>
    simp only [splitOnChar]
    split
    · rename_i hc
      simp [List.count_cons, hc, ih]
    · rename_i hc
      cases h : splitOnChar sep rest with
      | nil => exact absurd h (splitOnChar_ne_nil sep rest)
      | cons part parts =>
        rw [h] at ih
        simp at ih
        simp [List.count_cons, hc]
        omega

/-- A string without the separator splits into itself alone. -/
theorem splitOnChar_of_count_zero (sep : Char) (l : List Char)
    (h : l.count sep = 0) : splitOnChar sep l = [l] := by
  induction l with
  | nil => simp [splitOnChar]
  | cons c rest ih =>
    rw [List.count_cons] at h
    have hc : ¬ c = sep := by
      intro hcc
      simp [hcc] at h
    have hrest : rest.count sep = 0 := by omega
    simp only [splitOnChar, if_neg hc, ih hrest]


/-- C5: ResolveDomainError walks the error chain for a DomainError; when
the one it finds has a registered response it returns that response with
found = true; an unregistered identifier, a chain with no DomainError,
and a nil error all return found = false, upon which the handler layer
renders the generic internal-error response instead of the raw error. -/
theorem resolveDomainError_registry (err : GoError) :
    (∀ info resp, findDomainInfo err = some info →
       domainErrorResponses info = some resp →
       ResolveDomainError (some err) = (resp, true)) ∧
    (findDomainInfo err = none →
       ResolveDomainError (some err) = (default, false) ∧
       respondServiceError err = InternalServerError) ∧
    (∀ info, findDomainInfo err = some info →
       domainErrorResponses info = none →
       ResolveDomainError (some err) = (default, false) ∧
       respondServiceError err = InternalServerError) ∧
    ResolveDomainError none = (default, false) := by
  refine ⟨?_, ?_, ?_, rfl⟩
  · intro info resp h1 h2
    simp [ResolveDomainError, h1, h2]
  · intro h1
    simp [ResolveDomainError, respondServiceError, h1]
  · intro info h1 h2
    simp [ResolveDomainError, respondServiceError, h1, h2]

/-- Witness for C5 at concrete errors: a wrapped registered domain error
resolves to its registered body, and a bare sentinel plus an unregistered
domain error fall back. -/
theorem resolveDomainError_registry_witness :
    ResolveDomainError (some (.wrapped "error" (.domain "MEMBER_NOT_FOUND"))) =
      (⟨404, "MEMBER-001", "회원 정보를 찾을 수 없습니다."⟩, true) ∧
    ResolveDomainError (some (.sentinel "record not found")) = (default, false) ∧
    respondServiceError (.sentinel "record not found") = InternalServerError ∧
    respondServiceError (.domain "NOT_REGISTERED") = InternalServerError := by
  refine ⟨?_, ?_, ?_, ?_⟩
  · exact (resolveDomainError_registry
      (.wrapped "error" (.domain "MEMBER_NOT_FOUND"))).1 "MEMBER_NOT_FOUND" _ rfl rfl
  · exact ((resolveDomainError_registry (.sentinel "record not found")).2.1 rfl).1
  · exact ((resolveDomainError_registry (.sentinel "record not found")).2.1 rfl).2
  · exact ((resolveDomainError_registry
      (.domain "NOT_REGISTERED")).2.2.1 "NOT_REGISTERED" rfl rfl).2

/-- C8: the two concrete masking examples, and every non-empty input not
containing exactly one at sign masks to the fixed placeholder. -/
theorem maskEmail_spec :
    MaskEmail "john.doe@gmail.com".data = "j***@gmail.com".data ∧
    MaskEmail "".data = "".data ∧
    ∀ email : List Char, email ≠ [] → email.count '@' ≠ 1 →
      MaskEmail email = "***@***".data := by
  refine ⟨by decide, by decide, ?_⟩
  intro email hne hcount
  have hlen : (splitOnChar '@' email).length ≠ 2 := by
    rw [length_splitOnChar]; omega
  simp [MaskEmail, hne, hlen]

/-- Witness for C8 at an input with two at signs. -/
theorem maskEmail_spec_witness :
    MaskEmail "a@b@c".data = "***@***".data :=
  maskEmail_spec.2.2 "a@b@c".data (by decide) (by decide)

/-- C10: an input that is one at sign followed by an at-sign-free domain
(exactly one at sign, empty local part) masks to the placeholder-local
form, and whenever the one-character slice branch is reached the username
is non-empty, so the slice is exactly the first character — the length
guard keeps every input inside bounds. -/
theorem maskEmail_empty_local_guarded :
    (∀ domain : List Char, domain.count '@' = 0 →
       MaskEmail ('@' :: domain) = "***@".data ++ domain) ∧
    (∀ email : List Char, email ≠ [] →
       (splitOnChar '@' email).length = 2 →
       (splitOnChar '@' email).getD 0 [] ≠ [] →
       ∃ c rest, (splitOnChar '@' email).getD 0 [] = c :: rest ∧
         MaskEmail email =
           c :: ("***@".data ++ (splitOnChar '@' email).getD 1 [])) := by
  constructor
  · intro domain hd
    have hsplit : splitOnChar '@' ('@' :: domain) = [[], domain] := by
      simp [splitOnChar, splitOnChar_of_count_zero _ _ hd]
    simp [MaskEmail, hsplit]
  · intro email hne hlen hu
    obtain ⟨a, b, hab⟩ := List.length_eq_two.mp hlen
    rw [hab] at hu
    simp at hu
    obtain ⟨c, rest, hcr⟩ : ∃ c rest, a = c :: rest := by
      cases a with
      | nil => exact absurd rfl hu
      | cons c rest => exact ⟨c, rest, rfl⟩
    refine ⟨c, rest, by simp [hab, hcr], ?_⟩
    simp [MaskEmail, hne, hab, hcr]

/-- Witness for C10 at the empty-local-part example and at a concrete
input reaching the slice branch. -/
theorem maskEmail_empty_local_guarded_witness :
    MaskEmail ('@' :: "gmail.com".data) = "***@".data ++ "gmail.com".data ∧
    ∃ c rest, (splitOnChar '@' "ab@cd".data).getD 0 [] = c :: rest ∧
      MaskEmail "ab@cd".data =
        c :: ("***@".data ++ (splitOnChar '@' "ab@cd".data).getD 1 []) := by
  constructor
  · exact maskEmail_empty_local_guarded.1 "gmail.com".data (by decide)
  · exact maskEmail_empty_local_guarded.2 "ab@cd".data (by decide) (by decide)
      (by decide)

/-- Changing one byte of a list while staying in range yields a different
list. -/
theorem setD_ne_self (l : List Nat) (i : Nat) (b : Nat)
    (hi : i < l.length) (hb : b ≠ l.getD i 0) : l.set i b ≠ l := by
  intro h
  apply hb
  have := congrArg (fun t => t.getD i 0) h
  simpa [List.getD_eq_getElem?_getD, List.getElem?_set_self, hi] using this

/-- C1: validating an access token produced by the same manager before
its expiry succeeds with the original MemberID, Email and the access
token type; and replacing any single signature byte with a different
value makes ValidateToken fail (the recomputed MAC no longer matches),
yielding ErrInvalidToken. -/
theorem token_round_trip
    (mac : List Nat → token.ClaimsPayload → List Nat)
    (m : token.JWTManager) (id email : String)
    (issuedAt validatedAt : token.UnixTime)
    (_hbefore : validatedAt < issuedAt + m.accessExpiry) :
    (∃ c, m.ValidateToken mac validatedAt
        (.wellFormed (m.GenerateAccessToken mac issuedAt id email)) = .ok c ∧
      c.memberID = id ∧ c.email = email ∧ c.tokenType = token.ACCESS) ∧
    (∀ i b, i < (m.GenerateAccessToken mac issuedAt id email).sig.length →
      b ≠ (m.GenerateAccessToken mac issuedAt id email).sig.getD i 0 →
      m.ValidateToken mac validatedAt
        (.wellFormed
          { m.GenerateAccessToken mac issuedAt id email with
            sig := (m.GenerateAccessToken mac issuedAt id email).sig.set i b }) =
        .error .invalidToken) := by
  constructor
  · refine ⟨token.unmarshalClaims (token.marshalClaims
      (m.accessTokenClaims issuedAt id email)), ?_, rfl, rfl, rfl⟩
    simp [token.JWTManager.ValidateToken, token.parseWithClaims,
      token.JWTManager.GenerateAccessToken, token.unmarshalClaims]
  · intro i b hi hb
    have hne : ((m.GenerateAccessToken mac issuedAt id email).sig.set i b) ≠
        mac m.secret (m.GenerateAccessToken mac issuedAt id email).payload :=
      setD_ne_self _ i b hi hb
    simp [token.JWTManager.ValidateToken, token.parseWithClaims, hne]

/-- Witness for C1 with the concrete manager, MAC, timestamps and a
flipped first signature byte. -/
theorem token_round_trip_witness :
    (∃ c, mgrExample.ValidateToken macModel 2000
        (.wellFormed (mgrExample.GenerateAccessToken macModel 1000 "1" "a@x.com")) =
          .ok c ∧
      c.memberID = "1" ∧ c.email = "a@x.com" ∧ c.tokenType = token.ACCESS) ∧
    mgrExample.ValidateToken macModel 2000
      (.wellFormed
        { mgrExample.GenerateAccessToken macModel 1000 "1" "a@x.com" with
          sig := (mgrExample.GenerateAccessToken macModel 1000 "1" "a@x.com").sig.set 0 7 }) =
      .error .invalidToken :=
  ⟨(token_round_trip macModel mgrExample "1" "a@x.com" 1000 2000 (by decide)).1,
   (token_round_trip macModel mgrExample "1" "a@x.com" 1000 2000 (by decide)).2
     0 7 (by decide) (by decide)⟩

/-- C2 (code bug): ValidateToken can never fail with ErrExpiredToken.
The Claims struct shadows the embedded RegisteredClaims exp and iat JSON
tags with its own int64 fields, so unmarshaling leaves
RegisteredClaims.ExpiresAt nil, GetExpirationTime() returns nil, and the
jwt v5 validator skips the expiry check (jwt.ErrTokenExpired is
unreachable, making the expiry branch of ValidateToken dead code).
Likewise the undecodable-claims case surfaces as a parse error and is
mapped to ErrInvalidToken, never ErrInvalidClaims.  Concretely, an
access token issued at time 1000 with a one-hour TTL (expiry 4600)
validates successfully at time 1000000000. -/
theorem validateToken_expiry_bug :
    (∀ (mac : List Nat → token.ClaimsPayload → List Nat)
       (m : token.JWTManager) (now : token.UnixTime)
       (input : token.TokenInput),
       m.ValidateToken mac now input ≠ .error .expiredToken) ∧
    (∀ (mac : List Nat → token.ClaimsPayload → List Nat)
       (m : token.JWTManager) (now : token.UnixTime)
       (alg : String) (sig : List Nat),
       m.ValidateToken mac now (.undecodableClaims alg sig) =
         .error .invalidToken) ∧
    mgrExample.ValidateToken macModel 1000000000
      (.wellFormed (mgrExample.GenerateAccessToken macModel 1000 "1" "a@x.com")) =
      .ok { memberID := "1", email := "a@x.com", tokenType := "access",
            expiresAt := 4600, issuedAt := 1000,
            registered := { subject := "", expiresAt := none,
                            issuedAt := none, issuer := "pray-together" } } := by
  refine ⟨?_, ?_, rfl⟩
  · intro mac m now input
    cases input with
    | malformed =>
      simp [token.JWTManager.ValidateToken, token.parseWithClaims]
    | undecodableClaims a s =>
      simp [token.JWTManager.ValidateToken, token.parseWithClaims]
    | wellFormed t =>
      simp only [token.JWTManager.ValidateToken, token.parseWithClaims,
        token.unmarshalClaims]
      split
      · rename_i heq
        split_ifs at heq <;> simp at heq <;> (subst heq; simp)
      · simp
  · intro mac m now a s
    simp [token.JWTManager.ValidateToken, token.parseWithClaims]

/-- C9 counterexample: the access-token claims do not carry the member id
as their subject — GenerateAccessToken, unlike GenerateRefreshToken,
never sets RegisteredClaims.Subject, so the subject stays empty and the
serialized payload omits the sub key. -/
theorem access_token_subject_cex :
    (mgrExample.accessTokenClaims 1000 "1" "a@x.com").registered.subject ≠ "1" ∧
    (mgrExample.GenerateAccessToken macModel 1000 "1" "a@x.com").payload.sub =
      none := by
  exact ⟨by decide, rfl⟩

/-- C9 amended: the access-token claims carry token type access,
issued-at = issue time and expires-at = issue time plus the access TTL
(both as the int64 claims and inside the RegisteredClaims), and the
member id in the MemberID claim — but the registered subject is left
empty; only the refresh-token claims carry the member id as subject.
The signed token's payload is exactly the marshaled form of these
claims. -/
theorem access_token_claims_amended
    (mac : List Nat → token.ClaimsPayload → List Nat)
    (m : token.JWTManager) (now : token.UnixTime) (memberID email : String) :
    (m.accessTokenClaims now memberID email).tokenType = token.ACCESS ∧
    (m.accessTokenClaims now memberID email).issuedAt = now ∧
    (m.accessTokenClaims now memberID email).expiresAt = now + m.accessExpiry ∧
    (m.accessTokenClaims now memberID email).registered.issuedAt = some now ∧
    (m.accessTokenClaims now memberID email).registered.expiresAt =
      some (now + m.accessExpiry) ∧
    (m.accessTokenClaims now memberID email).memberID = memberID ∧
    (m.accessTokenClaims now memberID email).registered.subject = "" ∧
    (m.refreshTokenClaims now memberID email).registered.subject = memberID ∧
    (m.GenerateAccessToken mac now memberID email).payload =
      token.marshalClaims (m.accessTokenClaims now memberID email) :=
  ⟨rfl, rfl, rfl, rfl, rfl, rfl, rfl, rfl, rfl⟩

/-- C3: a login attempt against an unregistered email and a login attempt
against a registered email with a non-matching password both fail with an
error wrapping ErrInCorrectEmailPassword, which resolves to the single
registered body {status 400, code AUTH-003} — the two causes are
indistinguishable at the API boundary. -/
theorem login_anti_enumeration
    (db : List model.Member) (checkpw : String → String → Bool)
    (genAccess genRefresh : String → String → Except GoError String)
    (emailA pwA emailB pwB : String) (m : model.Member)
    (hA : member.FindByEmail db emailA = .error gormErrRecordNotFound)
    (hB : member.FindByEmail db emailB = .ok m)
    (hpw : checkpw m.password pwB = false) :
    auth.Login db checkpw genAccess genRefresh ⟨emailA, pwA⟩ =
      .error (.wrapped "error" auth.ErrInCorrectEmailPassword) ∧
    auth.Login db checkpw genAccess genRefresh ⟨emailB, pwB⟩ =
      .error (.wrapped "error" auth.ErrInCorrectEmailPassword) ∧
    ResolveDomainError
        (some (GoError.wrapped "error" auth.ErrInCorrectEmailPassword)) =
      (⟨400, "AUTH-003", "이메일 또는 비밀번호가 일치하지 않습니다."⟩, true) := by
  refine ⟨?_, ?_, rfl⟩
  · simp [auth.Login, hA, errorsIs, gormErrRecordNotFound]
  · simp [auth.Login, hB, hpw]

/-- Witness for C3: one registered row; a miss on another email and a
wrong password on the registered one produce the identical outcome. -/
theorem login_anti_enumeration_witness :
    auth.Login [⟨1, "a@x.com", "A", "010-1234-5678", "hash1"⟩]
        (fun h p => h == p) (fun _ _ => .ok "at") (fun _ _ => .ok "rt")
        ⟨"b@x.com", "pw123456"⟩ =
      .error (.wrapped "error" auth.ErrInCorrectEmailPassword) ∧
    auth.Login [⟨1, "a@x.com", "A", "010-1234-5678", "hash1"⟩]
        (fun h p => h == p) (fun _ _ => .ok "at") (fun _ _ => .ok "rt")
        ⟨"a@x.com", "wrongpw1"⟩ =
      .error (.wrapped "error" auth.ErrInCorrectEmailPassword) ∧
    ResolveDomainError
        (some (GoError.wrapped "error" auth.ErrInCorrectEmailPassword)) =
      (⟨400, "AUTH-003", "이메일 또는 비밀번호가 일치하지 않습니다."⟩, true) :=
  login_anti_enumeration [⟨1, "a@x.com", "A", "010-1234-5678", "hash1"⟩]
    (fun h p => h == p) (fun _ _ => .ok "at") (fun _ _ => .ok "rt")
    "b@x.com" "pw123456" "a@x.com" "wrongpw1"
    ⟨1, "a@x.com", "A", "010-1234-5678", "hash1"⟩
    rfl rfl (by decide)

/-- C4: a signup whose email already has a row aborts with an error
wrapping ErrMemberAlreadyExists, resolved to {409, MEMBER-002}, and
performs no write (the transaction rolls back, so the error outcome
carries no new state in this embedding); and after one successful signup
a second signup with the same email fails that way while exactly one row
with that email exists. -/
theorem signup_duplicate_email
    (db : List model.Member) (hash : String → Except GoError String)
    (req req2 : auth.SignupRequest) (hp : String)
    (hnone : (db.filter (fun m => m.email == req.email)).length = 0)
    (hhash : hash req.password = .ok hp)
    (hsame : req2.email = req.email) :
    (∀ (d : List model.Member) (r : auth.SignupRequest),
       member.IsExist d r.email = true →
       auth.Signup d hash r =
         .error (.wrapped "error" member.ErrMemberAlreadyExists) ∧
       errorsIs (.wrapped "error" member.ErrMemberAlreadyExists)
         member.ErrMemberAlreadyExists = true ∧
       ResolveDomainError
           (some (GoError.wrapped "error" member.ErrMemberAlreadyExists)) =
         (⟨409, "MEMBER-002", "이미 가입된 사용자입니다."⟩, true)) ∧
    ∃ db1, auth.Signup db hash req = .ok db1 ∧
      (db1.filter (fun m => m.email == req.email)).length = 1 ∧
      auth.Signup db1 hash req2 =
        .error (.wrapped "error" member.ErrMemberAlreadyExists) := by
  constructor
  · intro d r hr
    exact ⟨by simp [auth.Signup, hr], by decide, rfl⟩
  · refine ⟨member.Create db (model.NewMember req.name req.email
      req.phoneNumber hp), ?_, ?_, ?_⟩
    · simp [auth.Signup, member.IsExist, hnone, hhash]
    · simp [member.Create, List.filter_append, hnone, model.NewMember]
    · have hex : member.IsExist (member.Create db (model.NewMember req.name
        req.email req.phoneNumber hp)) req2.email = true := by
        simp [member.IsExist, member.Create, List.filter_append, hsame,
          model.NewMember]
      simp [auth.Signup, hex]

/-- Witness for C4: empty database, signup then duplicate signup with the
same email. -/
theorem signup_duplicate_email_witness :
    (∀ (d : List model.Member) (r : auth.SignupRequest),
       member.IsExist d r.email = true →
       auth.Signup d (fun p => .ok ("h".append p)) r =
         .error (.wrapped "error" member.ErrMemberAlreadyExists) ∧
       errorsIs (.wrapped "error" member.ErrMemberAlreadyExists)
         member.ErrMemberAlreadyExists = true ∧
       ResolveDomainError
           (some (GoError.wrapped "error" member.ErrMemberAlreadyExists)) =
         (⟨409, "MEMBER-002", "이미 가입된 사용자입니다."⟩, true)) ∧
    ∃ db1, auth.Signup [] (fun p => .ok ("h".append p))
        ⟨"A", "a@x.com", "010-1234-5678", "password1"⟩ = .ok db1 ∧
      (db1.filter (fun m => m.email == "a@x.com")).length = 1 ∧
      auth.Signup db1 (fun p => .ok ("h".append p))
        ⟨"B", "a@x.com", "010-9876-5432", "password2"⟩ =
        .error (.wrapped "error" member.ErrMemberAlreadyExists) :=
  signup_duplicate_email [] (fun p => .ok ("h".append p))
    ⟨"A", "a@x.com", "010-1234-5678", "password1"⟩
    ⟨"B", "a@x.com", "010-9876-5432", "password2"⟩
    "hpassword1" (by decide) rfl rfl

/-- C7: GetProfile on an absent member id fails with an error wrapping
ErrMemberNotFound, rendered as {404, MEMBER-001}; on a present row the
view carries exactly the id, name, email and phone number; and the result
is invariant under any rewriting of the stored password hashes, so the
view never depends on (in particular never contains) the password
hash. -/
theorem getProfile_profile_view (db : List model.Member) (memberID : Nat) :
    (db.find? (fun m => m.id == memberID) = none →
       member.GetProfile db memberID =
         .error (.wrapped "error" member.ErrMemberNotFound) ∧
       respondServiceError (.wrapped "error" member.ErrMemberNotFound) =
         ⟨404, "MEMBER-001", "회원 정보를 찾을 수 없습니다."⟩) ∧
    (∀ m, member.FindByID db memberID = .ok m →
       member.GetProfile db memberID =
         .ok ⟨m.id, m.name, m.email, m.phoneNumber⟩) ∧
    (∀ f : String → String,
       member.GetProfile (db.map (scrubPassword f)) memberID =
         member.GetProfile db memberID) := by
  refine ⟨?_, ?_, ?_⟩
  · intro hnone
    refine ⟨?_, rfl⟩
    simp [member.GetProfile, member.FindByID, hnone, errorsIs,
      gormErrRecordNotFound]
  · intro m hm
    simp [member.GetProfile, hm]
  · intro f
    have hfind : (db.map (scrubPassword f)).find? (fun m => m.id == memberID) =
        (db.find? (fun m => m.id == memberID)).map (scrubPassword f) := by
      rw [List.find?_map]
      rfl
    cases hdb : db.find? (fun m => m.id == memberID) with
    | none =>
      simp [member.GetProfile, member.FindByID, hfind, hdb]
    | some m =>
      simp [member.GetProfile, member.FindByID, hfind, hdb, scrubPassword]

/-- Witness for C7: one-row database, a missing id, the present id, and
a password rewrite that leaves the view unchanged. -/
theorem getProfile_profile_view_witness :
    member.GetProfile [⟨1, "a@x.com", "A", "010-1234-5678", "h1"⟩] 2 =
      .error (.wrapped "error" member.ErrMemberNotFound) ∧
    member.GetProfile [⟨1, "a@x.com", "A", "010-1234-5678", "h1"⟩] 1 =
      .ok ⟨1, "A", "a@x.com", "010-1234-5678"⟩ ∧
    member.GetProfile
        ([⟨1, "a@x.com", "A", "010-1234-5678", "h1"⟩].map
          (scrubPassword (fun _ => "zzz"))) 1 =
      member.GetProfile [⟨1, "a@x.com", "A", "010-1234-5678", "h1"⟩] 1 :=
  ⟨((getProfile_profile_view [⟨1, "a@x.com", "A", "010-1234-5678", "h1"⟩] 2).1
      rfl).1,
   (getProfile_profile_view [⟨1, "a@x.com", "A", "010-1234-5678", "h1"⟩] 1).2.1
     ⟨1, "a@x.com", "A", "010-1234-5678", "h1"⟩ rfl,
   (getProfile_profile_view [⟨1, "a@x.com", "A", "010-1234-5678", "h1"⟩] 1).2.2
     (fun _ => "zzz")⟩

/-- C6: the middleware protocol — an empty (missing) Authorization header
yields the MISSING_TOKEN domain error; a header SplitN does not cut into
two parts, or whose scheme is not Bearer up to case, yields INVALID_TOKEN;
the three ValidateToken failure kinds map through mapTokenError to the
EXPIRED_TOKEN, INVALID_CLAIMS and INVALID_TOKEN domain errors; every
failure aborts the chain with the resolved 401 AUTH-000 response; and on
success the claims MemberID and Email are attached to the request context
and the chain proceeds. -/
theorem jwt_middleware_protocol
    (validate : String → Except token.TokenError token.Claims)
    (authHeader : String) :
    (authHeader = "" →
       middleware.extractToken authHeader = .error middleware.ErrMissingToken ∧
       middleware.JWT validate authHeader =
         .abort middleware.authRequiredResponse) ∧
    (authHeader ≠ "" →
       ((middleware.splitNSpace2 authHeader.data).length ≠ 2 ∨
        middleware.equalFold ((middleware.splitNSpace2 authHeader.data).getD 0 [])
          middleware.BearerScheme.data = false) →
       middleware.extractToken authHeader = .error middleware.ErrInvalidToken ∧
       middleware.JWT validate authHeader =
         .abort middleware.authRequiredResponse) ∧
    (middleware.mapTokenError .expiredToken = middleware.ErrExpiredToken ∧
     middleware.mapTokenError .invalidClaims = middleware.ErrInvalidClaims ∧
     middleware.mapTokenError .invalidToken = middleware.ErrInvalidToken) ∧
    (∀ tok e, middleware.extractToken authHeader = .ok tok →
       validate tok = .error e →
       middleware.JWT validate authHeader =
         .abort middleware.authRequiredResponse ∧
       middleware.handleJWTError (middleware.mapTokenError e) =
         .abort middleware.authRequiredResponse) ∧
    (∀ tok claims, middleware.extractToken authHeader = .ok tok →
       validate tok = .ok claims →
       middleware.JWT validate authHeader =
         .proceed claims.memberID claims.email) := by
  refine ⟨?_, ?_, ⟨rfl, rfl, rfl⟩, ?_, ?_⟩
  · intro hempty
    subst hempty
    exact ⟨rfl, rfl⟩
  · intro hne hbad
    have hex : middleware.extractToken authHeader =
        .error middleware.ErrInvalidToken := by
      have hcond : ((middleware.splitNSpace2 authHeader.data).length ≠ 2 ||
          !middleware.equalFold
            ((middleware.splitNSpace2 authHeader.data).getD 0 [])
            middleware.BearerScheme.data) = true := by
        rcases hbad with h | h
        · simp [h]
        · rw [h]; simp
      simp only [middleware.extractToken, if_neg hne]
      rw [if_pos hcond]
    refine ⟨hex, ?_⟩
    simp [middleware.JWT, hex]
    rfl
  · intro tok e hex hv
    have hmap : middleware.handleJWTError (middleware.mapTokenError e) =
        .abort middleware.authRequiredResponse := by
      cases e <;> rfl
    refine ⟨?_, hmap⟩
    simp [middleware.JWT, hex, hv, hmap]
  · intro tok claims hex hv
    simp [middleware.JWT, hex, hv]

/-- Witness for C6: an empty header, a non-Bearer scheme, a rejected
token, and an accepted token on a lower-case bearer scheme. -/
theorem jwt_middleware_protocol_witness :
    middleware.JWT (fun _ => .error .expiredToken) "" =
      .abort middleware.authRequiredResponse ∧
    middleware.JWT (fun _ => .error .expiredToken) "Token abc" =
      .abort middleware.authRequiredResponse ∧
    middleware.JWT (fun _ => .error .expiredToken) "Bearer abc" =
      .abort middleware.authRequiredResponse ∧
    middleware.JWT
        (fun _ => .ok ⟨"1", "a@x.com", "access", 4600, 1000,
          ⟨"", none, none, "iss"⟩⟩) "bearer abc" =
      .proceed "1" "a@x.com" :=
  ⟨((jwt_middleware_protocol (fun _ => .error .expiredToken) "").1 rfl).2,
   ((jwt_middleware_protocol (fun _ => .error .expiredToken) "Token abc").2.1
     (by decide) (Or.inr (by decide))).2,
   ((jwt_middleware_protocol (fun _ => .error .expiredToken)
       "Bearer abc").2.2.2.1 "abc" .expiredToken rfl rfl).1,
   (jwt_middleware_protocol
       (fun _ => .ok ⟨"1", "a@x.com", "access", 4600, 1000,
         ⟨"", none, none, "iss"⟩⟩) "bearer abc").2.2.2.2 "abc"
     ⟨"1", "a@x.com", "access", 4600, 1000, ⟨"", none, none, "iss"⟩⟩ rfl rfl⟩
